import Mathlib

/-
Verification development for the ASR6501 LoRaWAN driver (ASR6501.py).

The driver talks to a serial modem with AT commands.  We embed the
transaction engine, the delayed-reply reader, the join operation, the
uplink send path and the airtime formula as executable Lean functions.

Modelling conventions:
* The serial channel is a script.  For the polling loops of inquire and
  set commands one loop iteration consumes one script entry: a script
  entry of the form (some l) means one buffered line l was read on that
  iteration, while none means no bytes were waiting on that iteration.
* Wall-clock time advances one tick per loop iteration; a timeout of
  t seconds corresponds to t * K ticks for a tick rate K, so a loop
  raising when the elapsed time reaches the timeout is modelled by a
  fuel of t * K iterations.
* Exceptions become an error component threaded next to the state,
  since the Python object keeps all mutations made before a raise.
-/

/-- Whitespace stripped by the bytes rstrip call in Python. -/
def isPyWs (c : Char) : Bool :=
  c = ' ' || c = '\t' || c = '\n' || c = '\r' || c = '\x0b' || c = '\x0c'

/-- Python rstrip: drop trailing whitespace. -/
def pyRstrip (s : String) : String :=
  ⟨(s.data.reverse.dropWhile isPyWs).reverse⟩

/-- Python slice s[:n]. -/
def pyTake (s : String) (n : Nat) : String := ⟨s.data.take n⟩

/-- Python slice s[n:]. -/
def pyDrop (s : String) (n : Nat) : String := ⟨s.data.drop n⟩

/-- Worker for pySplit, walking the characters with a split budget. -/
def pySplitGo (sep : Char) : List Char → Nat → List Char → List String
  | [], _, acc => [⟨acc.reverse⟩]
  | c :: cs, 0, acc => [⟨acc.reverse ++ (c :: cs)⟩]
  | c :: cs, m + 1, acc =>
      if c = sep then ⟨acc.reverse⟩ :: pySplitGo sep cs m []
      else pySplitGo sep cs (m + 1) (c :: acc)

/-- Python str.split(sep, maxsplit): at most maxsplit splits, remainder kept verbatim. -/
def pySplit (s : String) (sep : Char) (maxsplit : Nat) : List String :=
  pySplitGo sep s.data maxsplit []

/-- Decimal value of one digit character. -/
def digitVal (c : Char) : Option Nat :=
  if c.isDigit then some (c.toNat - 48) else none

/-- Accumulate a decimal digit string. -/
def digitsNatGo : List Char → Nat → Option Nat
  | [], acc => some acc
  | c :: cs, acc =>
    match digitVal c with
    | some d => digitsNatGo cs (acc * 10 + d)
    | none => none

/-- A non-empty run of decimal digits as a number. -/
def digitsNat : List Char → Option Nat
  | [] => none
  | cs => digitsNatGo cs 0

/-- Python int(s) on a decimal string with an optional sign, none when
int would raise ValueError. -/
def pyInt (s : String) : Option Int :=
  match s.data with
  | '-' :: cs => (digitsNat cs).map (fun n => -(n : Int))
  | '+' :: cs => (digitsNat cs).map (fun n => (n : Int))
  | cs => (digitsNat cs).map (fun n => (n : Int))

/-- Separator class of the reply pattern, a colon or an equals sign. -/
def isReplySep (c : Char) : Bool := c = ':' || c = '='

/-- Group 2 of re.match on the reply pattern.  The first group is greedy,
so group 2 is the text after the last colon or equals sign; no match when
the line has neither separator. -/
def replyPatGroup2 (s : String) : Option String :=
  if s.data.any isReplySep then
    some ⟨(s.data.reverse.takeWhile (fun c => !isReplySep c)).reverse⟩
  else none

/-- One character of an upper-case hexadecimal string. -/
def isHexUpper (c : Char) : Bool := c.isDigit || ('A' ≤ c && c ≤ 'F')

/-- The validation patterns hex8char, hex16char and hex32char in the source
match exactly 2 * pairs characters from [0-9A-F]. -/
def matchHexPat (pairs : Nat) (s : String) : Bool :=
  s.data.length = 2 * pairs && s.data.all isHexUpper

/-- A Python value stored in the last-error-number attribute: the inquire
and set paths store the substring after the colon, while the delayed-reply
reader stores the result of int(). -/
inductive PyVal where
  | str (s : String)
  | int (n : Int)
deriving DecidableEq, Repr

/-- The exceptions of the driver, plus the builtin Python errors its code
can raise. -/
inductive ASRErr where
  | receiveTimeout
  | patternMatchFailed
  | cmeError
  | errSend
  | errSent
  | serialError
  | unsupportedManuf
  | invalidDevEui
  | invalidAppEui
  | invalidAppKey
  | invalidDevAddr
  | invalidNwkSKey
  | invalidAppSKey
  | assertionError
  | valueError
  | typeError
deriving DecidableEq, Repr

/-- The mutable attributes of the asr6501 object that the modelled methods
touch.  The fields LastErrorType and LastErrorNum (capital L) are distinct
Python attributes from lastErrorType and lastErrorNum: the source writes
the former in _clearLastError and reads the latter everywhere else.
The downlink callback is modelled by a registration flag plus the list of
argument tuples it has been invoked with; written records every AT command
string written to the serial channel. -/
structure DriverState where
  lastErrorType : Option String := none
  lastErrorNum : Option PyVal := none
  lastATCmd : Option String := none
  LastErrorType : Option String := none
  LastErrorNum : Option PyVal := none
  joined : Bool := false
  joinMode : Int := 0
  downlinkRecvd : Bool := false
  hasDownlinkCallback : Bool := false
  callbackCalls : List (String × String × String × String) := []
  written : List String := []
deriving DecidableEq, Repr

/-- A fresh driver object as set up at the top of init. -/
def st0 : DriverState := {}

/-- The Python method _clearLastError.  Faithful to the source: it assigns
the capital-L attributes, not the lowercase ones that getLastATError reads. -/
def _clearLastError (st : DriverState) : DriverState :=
  { st with LastErrorType := none, LastErrorNum := none }

/-- The dict returned by getLastATError. -/
structure ATErrorRec where
  AtCmd : Option String
  errType : Option String
  errNum : Option PyVal
deriving DecidableEq, Repr

/-- The Python method getLastATError: none when lastErrorType is None,
otherwise the dict of the lowercase attributes. -/
def getLastATError (st : DriverState) : Option ATErrorRec :=
  if st.lastErrorType = none then none
  else some ⟨st.lastATCmd, st.lastErrorType, st.lastErrorNum⟩

/-- Decidable equality for Except, used to evaluate concrete transactions. -/
instance {ε α : Type} [DecidableEq ε] [DecidableEq α] : DecidableEq (Except ε α)
  | .error a, .error b =>
    if h : a = b then isTrue (by rw [h]) else isFalse (by intro hh; cases hh; exact h rfl)
  | .error _, .ok _ => isFalse (by intro h; cases h)
  | .ok _, .error _ => isFalse (by intro h; cases h)
  | .ok a, .ok b =>
    if h : a = b then isTrue (by rw [h]) else isFalse (by intro hh; cases hh; exact h rfl)

/-- Result of an inquire transaction: a single value or an RSSI list. -/
inductive InqResult where
  | scalar (s : String)
  | rssiList (l : List String)
deriving DecidableEq, Repr

/-- The polling loop of _inquire.  One iteration per fuel unit; the
timeout test sits at the top of the loop, so fuel 0 raises
ASRReceiveTimeout.  The branches mirror the source line by line:
echo lines are skipped, +CRSSI: opens a list, OK terminates (returning
the list, or group 2 of the reply pattern applied to the last value
line, raising when there was no value line or it has no separator),
a +CME ERROR line stores the two split fields and raises, and any
other line is accumulated. -/
def inquireLoop (st : DriverState) (script : List (Option String)) (fuel : Nat)
    (rssiData : List String) (kvp : Option String) (doingRssiList : Bool) :
    DriverState × Except ASRErr InqResult :=
  match fuel with
  | 0 => (st, .error .receiveTimeout)
  | f + 1 =>
    match script with
    | [] => inquireLoop st [] f rssiData kvp doingRssiList
    | none :: rest => inquireLoop st rest f rssiData kvp doingRssiList
    | some raw :: rest =>
      let rx := pyRstrip raw
      if rx = "" then inquireLoop st rest f rssiData kvp doingRssiList
      else if pyTake rx 3 = "AT+" then inquireLoop st rest f rssiData kvp doingRssiList
      else if rx = "+CRSSI:" then inquireLoop st rest f rssiData kvp true
      else if rx = "OK" then
        if doingRssiList then (st, .ok (.rssiList rssiData))
        else
          match kvp with
          | none => (st, .error .typeError)
          | some k =>
            match replyPatGroup2 k with
            | some v => (st, .ok (.scalar v))
            | none => (st, .error .patternMatchFailed)
      else if pyTake rx 11 = "+CME ERROR:" then
        match pySplit rx ':' 2 with
        | [a, b] =>
          ({ st with lastErrorType := some a, lastErrorNum := some (.str b) },
           .error .cmeError)
        | _ => (st, .error .valueError)
      else
        if doingRssiList then inquireLoop st rest f (rssiData ++ [rx]) kvp doingRssiList
        else inquireLoop st rest f rssiData (some rx) doingRssiList

/-- The Python method _inquire: clear the last error (capital-L fields),
record the command, reset the input buffer, write the AT line, then poll.
The timeout of rxTimeout seconds becomes rxTimeout * K loop iterations at
tick rate K; callers pass the fuel already multiplied. -/
def _inquire (st : DriverState) (cmd : String) (script : List (Option String))
    (fuel : Nat) : DriverState × Except ASRErr InqResult :=
  let st := _clearLastError st
  let st := { st with
    lastATCmd := some cmd,
    written := st.written ++ ["AT+" ++ cmd ++ "?\r\n"] }
  inquireLoop st script fuel [] none false

/-- The Python method getManufId. -/
def getManufId (st : DriverState) (script : List (Option String)) (fuel : Nat) :
    DriverState × Except ASRErr InqResult :=
  _inquire st "CGMI" script fuel

/-- The polling loop of _setCmd.  One iteration per fuel unit; the timeout
test sits at the top of the loop.  OK and an OK+SEND acknowledgement return
True, a +CME ERROR line stores the split fields and raises, and every other
line is ignored. -/
def setCmdLoop (st : DriverState) (script : List (Option String)) (fuel : Nat) :
    DriverState × Except ASRErr Bool :=
  match fuel with
  | 0 => (st, .error .receiveTimeout)
  | f + 1 =>
    match script with
    | [] => setCmdLoop st [] f
    | none :: rest => setCmdLoop st rest f
    | some raw :: rest =>
      let rx := pyRstrip raw
      if rx = "" then setCmdLoop st rest f
      else if rx = "OK" then (st, .ok true)
      else if pyTake rx 8 = "OK+SEND:" then (st, .ok true)
      else if pyTake rx 11 = "+CME ERROR:" then
        match pySplit rx ':' 2 with
        | [a, b] =>
          ({ st with lastErrorType := some a, lastErrorNum := some (.str b) },
           .error .cmeError)
        | _ => (st, .error .valueError)
      else setCmdLoop st rest f

/-- The Python method _setCmd: clear the last error (capital-L fields),
record the command, reset the input buffer, write the AT line, then poll. -/
def _setCmd (st : DriverState) (cmd : String) (script : List (Option String))
    (fuel : Nat) : DriverState × Except ASRErr Bool :=
  let st := _clearLastError st
  let st := { st with
    lastATCmd := some cmd,
    written := st.written ++ ["AT+" ++ cmd ++ "\r\n"] }
  setCmdLoop st script fuel

/-- The Python method setJoinMode, including its assert and the dead
return-False fallthrough after the if on the _setCmd result. -/
def setJoinMode (st : DriverState) (mode : Nat) (script : List (Option String))
    (fuel : Nat) : DriverState × Except ASRErr Bool :=
  if mode > 1 then (st, .error .assertionError)
  else
    match _setCmd st ("CJOINMODE=" ++ toString mode) script fuel with
    | (st1, .error e) => (st1, .error e)
    | (st1, .ok true) => ({ st1 with joinMode := (mode : Int) }, .ok true)
    | (st1, .ok false) => (st1, .ok false)

/-- The Python method setDevEui: asserts OTAA mode, validates against the
16-character pattern hex16char, then issues the command. -/
def setDevEui (st : DriverState) (deveui : String) (script : List (Option String))
    (fuel : Nat) : DriverState × Except ASRErr Bool :=
  if st.joinMode ≠ 0 then (st, .error .assertionError)
  else if matchHexPat 8 deveui then _setCmd st ("CDEVEUI=" ++ deveui) script fuel
  else (st, .error .invalidDevEui)

/-- The Python method setAppEui: asserts OTAA mode, validates against
hex16char, then issues the command. -/
def setAppEui (st : DriverState) (appeui : String) (script : List (Option String))
    (fuel : Nat) : DriverState × Except ASRErr Bool :=
  if st.joinMode ≠ 0 then (st, .error .assertionError)
  else if matchHexPat 8 appeui then _setCmd st ("CAPPEUI=" ++ appeui) script fuel
  else (st, .error .invalidAppEui)

/-- The Python method setAppKey: asserts OTAA mode, validates against the
32-character pattern hex32char, then issues the command. -/
def setAppKey (st : DriverState) (appkey : String) (script : List (Option String))
    (fuel : Nat) : DriverState × Except ASRErr Bool :=
  if st.joinMode ≠ 0 then (st, .error .assertionError)
  else if matchHexPat 16 appkey then _setCmd st ("CAPPKEY=" ++ appkey) script fuel
  else (st, .error .invalidAppKey)

/-- The Python method setDevAddr.  Faithful to the source: no mode assert,
and the validation uses hex16char, the 16-character pattern, although the
unused hex8char pattern is the one the source comments attach to DevAddr. -/
def setDevAddr (st : DriverState) (devaddr : String) (script : List (Option String))
    (fuel : Nat) : DriverState × Except ASRErr Bool :=
  if matchHexPat 8 devaddr then _setCmd st ("CDEVADDR=" ++ devaddr) script fuel
  else (st, .error .invalidDevAddr)

/-- The Python method setAppSKey: asserts ABP mode, validates against
hex32char, then issues the command. -/
def setAppSKey (st : DriverState) (appskey : String) (script : List (Option String))
    (fuel : Nat) : DriverState × Except ASRErr Bool :=
  if st.joinMode ≠ 1 then (st, .error .assertionError)
  else if matchHexPat 16 appskey then _setCmd st ("CAPPSKEY=" ++ appskey) script fuel
  else (st, .error .invalidAppSKey)

/-- The Python method setNwkSKey: no mode assert, validates against
hex32char, then issues the command. -/
def setNwkSKey (st : DriverState) (nwkskey : String) (script : List (Option String))
    (fuel : Nat) : DriverState × Except ASRErr Bool :=
  if matchHexPat 16 nwkskey then _setCmd st ("CNWKSKEY=" ++ nwkskey) script fuel
  else (st, .error .invalidNwkSKey)

/-- The Python method getRX1Delay, composing _inquire with _noneOrInt.
int() of a non-numeric string raises ValueError and int() of a list raises
TypeError. -/
def getRX1Delay (st : DriverState) (script : List (Option String)) (fuel : Nat) :
    DriverState × Except ASRErr Int :=
  match _inquire st "CRX1DELAY" script fuel with
  | (st1, .error e) => (st1, .error e)
  | (st1, .ok (.scalar s)) =>
    match pyInt s with
    | some n => (st1, .ok n)
    | none => (st1, .error .valueError)
  | (st1, .ok (.rssiList _)) => (st1, .error .typeError)

/-- The line-handling loop of _getDelayedReplies, consuming the buffered
lines one by one.  Join status lines flip the joined flag, OK+SENT and
OK+SEND are logged only, an OK+RECV line with a registered callback first
sets downlinkRecvd and then unpacks split(",", 4) into exactly four names
(raising ValueError on any other arity) before invoking the callback,
ERR+SEND and ERR+SENT store the error fields and raise, and anything else
is logged and ignored. -/
def drainLines : DriverState → List String → DriverState × Option ASRErr
  | st, [] => (st, none)
  | st, raw :: rest =>
    let rx := pyRstrip raw
    if rx = "" then drainLines st rest
    else if rx = "+CJOIN:OK" then drainLines { st with joined := true } rest
    else if rx = "+CJOIN:FAIL" then drainLines { st with joined := false } rest
    else if pyTake rx 8 = "OK+SENT:" then drainLines st rest
    else if pyTake rx 8 = "OK+RECV:" then
      if st.hasDownlinkCallback then
        let st := { st with downlinkRecvd := true }
        match pySplit (pyDrop rx 8) ',' 4 with
        | [a, b, c, d] =>
          drainLines { st with callbackCalls := st.callbackCalls ++ [(a, b, c, d)] } rest
        | _ => (st, some .valueError)
      else drainLines st rest
    else if pyTake rx 8 = "OK+SEND:" then drainLines st rest
    else if pyTake rx 9 = "ERR+SEND:" then
      match pyInt (pyDrop rx 9) with
      | some n =>
        ({ st with lastErrorType := some "ERR+SEND", lastErrorNum := some (.int n) },
         some .errSend)
      | none => ({ st with lastErrorType := some "ERR+SEND" }, some .valueError)
    else if pyTake rx 9 = "ERR+SENT:" then
      match pyInt (pyDrop rx 9) with
      | some n =>
        ({ st with lastErrorType := some "ERR+SENT", lastErrorNum := some (.int n) },
         some .errSent)
      | none => ({ st with lastErrorType := some "ERR+SENT" }, some .valueError)
    else drainLines st rest

/-- The Python method _getDelayedReplies: clear the last error (capital-L
fields), then process every buffered line. -/
def _getDelayedReplies (st : DriverState) (script : List String) :
    DriverState × Option ASRErr :=
  drainLines (_clearLastError st) script

/-- Outcome of the busy-wait loop inside join. -/
inductive JoinWaitRes where
  | arrived
  | timeout
deriving DecidableEq, Repr

/-- The busy-wait loop of join: while nothing is buffered, raise once the
elapsed time reaches the bound.  Availability is checked before the
deadline, as in the source; the list gives, per tick, whether a line is
buffered, with the empty remainder meaning nothing arrives any more. -/
def joinWaitLoop : Nat → List Bool → JoinWaitRes
  | 0, avail => if avail.getD 0 false then .arrived else .timeout
  | f + 1, avail =>
    if avail.getD 0 false then .arrived else joinWaitLoop f avail.tail

/-- The Python method join.  The asserts come first; a join start while
already joined returns False without any command; otherwise the CJOIN set
command is issued, the RX1 delay is inquired, the wait bound
retries * (RX1Delay + 1) seconds is busy-waited (times K ticks per
second), and the delayed replies are drained, returning the joined flag.
setScript and rx1Script are the channel scripts of the two inner
transactions, avail the per-tick availability during the busy wait, and
drainScript the lines buffered when the wait ends. -/
def join (st : DriverState) (start autojoin interval retries : Nat)
    (setScript rx1Script : List (Option String)) (avail : List Bool)
    (drainScript : List String) (K : Nat) : DriverState × Except ASRErr Bool :=
  if start > 1 then (st, .error .assertionError)
  else if autojoin > 1 then (st, .error .assertionError)
  else if interval < 1 ∨ interval > 255 then (st, .error .assertionError)
  else if retries < 1 ∨ retries > 256 then (st, .error .assertionError)
  else if st.joined = true ∧ start ≠ 0 then (st, .ok false)
  else
    let st := _clearLastError st
    let cmd := "CJOIN=" ++ toString start ++ "," ++ toString autojoin ++ ","
      ++ toString interval ++ "," ++ toString retries
    match _setCmd st cmd setScript (2 * K) with
    | (st1, .error e) => (st1, .error e)
    | (st1, .ok false) => (st1, .ok false)
    | (st1, .ok true) =>
      match getRX1Delay st1 rx1Script (2 * K) with
      | (st2, .error e) => (st2, .error e)
      | (st2, .ok rx1) =>
        let rxTimeout : Int := (retries : Int) * (rx1 + 1)
        match joinWaitLoop (rxTimeout.toNat * K) avail with
        | .timeout => (st2, .error .receiveTimeout)
        | .arrived =>
          match _getDelayedReplies st2 drainScript with
          | (st3, some e) => (st3, .error e)
          | (st3, none) => (st3, .ok st3.joined)

/-- Lower-case hexadecimal digit. -/
def hexDigitLower (n : Nat) : Char :=
  if n < 10 then Char.ofNat (48 + n) else Char.ofNat (87 + n)

/-- Python bytes.hex of one byte. -/
def byteHex (b : Nat) : List Char := [hexDigitLower (b / 16), hexDigitLower (b % 16)]

/-- UTF-8 encoding of one character as byte values. -/
def utf8Bytes (c : Char) : List Nat :=
  let n := c.toNat
  if n < 128 then [n]
  else if n < 2048 then [192 + n / 64, 128 + n % 64]
  else if n < 65536 then [224 + n / 4096, 128 + (n / 64) % 64, 128 + n % 64]
  else [240 + n / 262144, 128 + (n / 4096) % 64, 128 + (n / 64) % 64, 128 + n % 64]

/-- Python payload.encode("utf-8").hex(). -/
def utf8hex (s : String) : String :=
  ⟨(s.data.map (fun c => ((utf8Bytes c).map byteHex).flatten)).flatten⟩

/-- The wait loop at the end of sendPayload: while the elapsed time has
not passed the delay, drain the delayed replies.  The loop condition uses
a non-strict comparison, hence delay * K + 1 iterations at tick rate K;
scripts lists, per iteration, the lines that got buffered since the
previous drain. -/
def sendWaitLoop (st : DriverState) (scripts : List (List String)) :
    Nat → DriverState × Option ASRErr
  | 0 => (st, none)
  | n + 1 =>
    match _getDelayedReplies st (scripts.headD []) with
    | (st1, some e) => (st1, some e)
    | (st1, none) => sendWaitLoop st1 scripts.tail n

/-- The try-block of sendPayload: reset downlinkRecvd, issue the DTRX set
command, inquire the RX1 delay, then drain delayed replies until
RX1Delay + 2 seconds have elapsed, ending in the return-True statement. -/
def sendPayloadBody (st : DriverState) (payload : String) (confirm nbtrials : Nat)
    (setScript rx1Script : List (Option String)) (drainScripts : List (List String))
    (K : Nat) : DriverState × Except ASRErr Bool :=
  let st := { st with downlinkRecvd := false }
  let hexPayload := utf8hex payload
  let cmd := "DTRX=" ++ toString confirm ++ "," ++ toString nbtrials ++ ","
    ++ toString hexPayload.length ++ "," ++ hexPayload
  match _setCmd st cmd setScript (2 * K) with
  | (st1, .error e) => (st1, .error e)
  | (st1, .ok _) =>
    match getRX1Delay st1 rx1Script (2 * K) with
    | (st2, .error e) => (st2, .error e)
    | (st2, .ok rx1) =>
      let delay := rx1 + 2
      match sendWaitLoop st2 drainScripts (delay.toNat * K + 1) with
      | (st3, some e) => (st3, .error e)
      | (st3, none) => (st3, .ok true)

/-- The Python method sendPayload.  The try-block is sendPayloadBody; the
except-clause only logs, and the finally-clause executes return False,
which in Python replaces both the return True of the try-block and any
in-flight exception.  The returned state keeps all mutations made before
an exception, as the Python object does. -/
def sendPayload (st : DriverState) (payload : String) (confirm nbtrials : Nat)
    (setScript rx1Script : List (Option String)) (drainScripts : List (List String))
    (K : Nat) : DriverState × Bool :=
  ((sendPayloadBody st payload confirm nbtrials setScript rx1Script drainScripts K).1,
   false)

/-- Outcome of the identity check at the top of init. -/
inductive InitOutcome where
  | proceeded (st : DriverState)
  | exited (e : ASRErr)
deriving DecidableEq, Repr

/-- The identity-verification block of init.  getManufId runs on a fresh
object; _inquire returns a scalar or a list and can never return None, so
the raise of ASRSerialError guarded by the is-None test is unreachable; a
reply other than the string ASR raises ASRUnsupportedManuf.  The blanket
except-clause around the block catches every exception e raised in it,
including those two raises and any error out of the inquiry itself, and
calls exit(e): construction terminates and no instance is returned, which
exited records together with the exception it carried. -/
def initIdentityCheck (script : List (Option String)) (fuel : Nat) : InitOutcome :=
  match getManufId st0 script fuel with
  | (_, .error e) => .exited e
  | (st1, .ok r) =>
    match r with
    | .scalar s => if s = "ASR" then .proceeded st1 else .exited .unsupportedManuf
    | .rssiList _ => .exited .unsupportedManuf

/-- The method calcAirTime over exact rational arithmetic: symbol duration
from 2^SF / BW, preamble time from (NP + 4.25) symbols, payload symbol
count 8 + max(ceil((8 PL - 4 SF + 28 + 16 - 20 HE) / (4 (SF - 2 DE))) * (CR + 4), 0),
result in milliseconds. -/
def calcAirTime (PL SF BW NP HE DE CR : ℕ) : ℚ :=
  let Tsym : ℚ := (2 : ℚ) ^ SF / (BW : ℚ)
  let Tpreamble : ℚ := ((NP : ℚ) + 4.25) * Tsym
  let payloadSymbNb : ℤ :=
    8 + max (⌈((8 * (PL : ℚ) - 4 * (SF : ℚ) + 28 + 16 - 20 * (HE : ℚ)) /
        (4 * ((SF : ℚ) - 2 * (DE : ℚ))))⌉ * ((CR : ℤ) + 4)) 0
  let Tpayload : ℚ := (payloadSymbNb : ℚ) * Tsym
  Tpayload + Tpreamble

/-- Modelled from the words of the specification: the closed-form LoRa
airtime formula, symbol duration 2^SF / BW, preamble duration
(N + 4.25) x symbol duration, payload symbol count
8 + max(0, ceil((8 PL - 4 SF + 28 + 16 - 20 H) / (4 (SF - 2 DE))) x (CR + 4)),
total = preamble + payload x symbol duration. -/
def airTimeSpec (PL SF BW NP HE DE CR : ℕ) : ℚ :=
  let Tsym : ℚ := (2 : ℚ) ^ SF / (BW : ℚ)
  let Tpreamble : ℚ := ((NP : ℚ) + 4.25) * Tsym
  let payloadSymbNb : ℤ :=
    8 + max 0 (⌈((8 * (PL : ℚ) - 4 * (SF : ℚ) + 28 + 16 - 20 * (HE : ℚ)) /
        (4 * ((SF : ℚ) - 2 * (DE : ℚ))))⌉ * ((CR : ℤ) + 4))
  Tpreamble + (payloadSymbNb : ℚ) * Tsym

example : (_inquire st0 "CJOINMODE"
    [some "AT+CJOINMODE?", some "+CJOINMODE:0", some "OK"] 5).2
    = .ok (.scalar "0") := by decide

example : (_inquire st0 "CGMI" [some "AT+CGMI?", some "+CGMI:ASR", some "OK"] 5).2
    = .ok (.scalar "ASR") := by decide

example : (_inquire st0 "CGMI" [some "AT+CGMI?", some "+CME ERROR:1"] 5).2
    = .error .cmeError := by decide

def stCb : DriverState := { hasDownlinkCallback := true }

example : (_getDelayedReplies stCb ["OK+RECV:1,2,4,deadbeef"]).1.callbackCalls
    = [("1", "2", "4", "deadbeef")] := by decide

example : (_getDelayedReplies stCb ["OK+RECV:1,2,4,de,ad"]).2 = some .valueError := by decide

example : (_getDelayedReplies stCb ["OK+RECV:1,2,4,de,ad"]).1.callbackCalls = [] := by decide

example : setDevAddr st0 "DEADBEEF" [some "OK"] 2 = (st0, .error .invalidDevAddr) := by decide

example : (setDevAddr st0 "00DEADBEEF00DEAD" [some "OK"] 2).2 = .ok true := by decide

example : initIdentityCheck [] 3 = .exited .receiveTimeout := by decide

example : initIdentityCheck [some "AT+CGMI?", some "+CGMI:BOB", some "OK"] 5
    = .exited .unsupportedManuf := by decide

example : (sendPayloadBody stCb "" 0 8 [some "OK"] [some "+CRX1DELAY:5", some "OK"] [] 1).2
    = .ok true := by decide

example : (join st0 1 0 8 8 [some "OK"] [some "+CRX1DELAY:5", some "OK"] [] [] 1).2
    = .error .receiveTimeout := by decide

example : (_setCmd st0 "CGBR=115200" [some "OK"] 2).2 = .ok true := by decide

/-- A script entry that the inquire loop skips without effect: no bytes
waiting, an empty line, or a command echo. -/
def ignorableB : Option String → Bool
  | none => true
  | some raw => pyRstrip raw == "" || pyTake (pyRstrip raw) 3 == "AT+"

/-- A script entry that cannot end an inquire transaction: either no
bytes were waiting on that poll, or the line read is, after stripping,
neither the literal OK nor a +CME ERROR line.  Every other kind of line
(empty, echo, +CRSSI:, value lines) makes the loop poll again. -/
def nonTerminalB : Option String → Bool
  | none => true
  | some raw =>
    !(pyRstrip raw == "OK") && !(pyTake (pyRstrip raw) 11 == "+CME ERROR:")

/-- A script of skippable entries never produces a definitive reply, so
the inquire loop spends all its fuel and raises ASRReceiveTimeout. -/
theorem inquireLoop_timeout :
    ∀ (fuel : Nat) (st : DriverState) (script : List (Option String))
      (rssiData : List String) (kvp : Option String) (flag : Bool),
      (∀ e ∈ script, ignorableB e = true) →
      (inquireLoop st script fuel rssiData kvp flag).2 = .error .receiveTimeout := by
  intro fuel
  induction fuel with
  | zero => intro st script rssi kvp flag _; rfl
  | succ f ih =>
    intro st script rssi kvp flag h
    match script with
    | [] =>
      simp only [inquireLoop]
      exact ih st [] rssi kvp flag (by intro e he; cases he)
    | none :: rest =>
      simp only [inquireLoop]
      exact ih st rest rssi kvp flag (fun e he => h e (List.mem_cons_of_mem _ he))
    | some raw :: rest =>
      have hig := h (some raw) (List.mem_cons_self _ _)
      simp only [ignorableB, Bool.or_eq_true, beq_iff_eq] at hig
      simp only [inquireLoop]
      by_cases hempty : pyRstrip raw = ""
      · rw [if_pos hempty]
        exact ih st rest rssi kvp flag (fun e he => h e (List.mem_cons_of_mem _ he))
      · have hat : pyTake (pyRstrip raw) 3 = "AT+" := by
          rcases hig with h1 | h2
          · exact absurd h1 hempty
          · exact h2
        rw [if_neg hempty, if_pos hat]
        exact ih st rest rssi kvp flag (fun e he => h e (List.mem_cons_of_mem _ he))

/-- The set-command loop has no return-False path: every Except.ok it
produces carries true. -/
theorem setCmdLoop_ok_true :
    ∀ (fuel : Nat) (st : DriverState) (script : List (Option String))
      (st1 : DriverState) (b : Bool),
      setCmdLoop st script fuel = (st1, .ok b) → b = true := by
  intro fuel
  induction fuel with
  | zero =>
    intro st script st1 b h
    simp only [setCmdLoop, Prod.mk.injEq] at h
    exact (Except.noConfusion h.2)
  | succ f ih =>
    intro st script st1 b h
    match script with
    | [] => exact ih st [] st1 b (by simpa only [setCmdLoop] using h)
    | none :: rest => exact ih st rest st1 b (by simpa only [setCmdLoop] using h)
    | some raw :: rest =>
      simp only [setCmdLoop] at h
      repeat' split at h
      all_goals first
        | exact ih st rest st1 b h
        | (injection h with h1 h2; injection h2 with hb; exact hb.symm)
        | (injection h with h1 h2; exact Except.noConfusion h2)

/-- The joined flag survives the inquire loop: no branch of it writes the
flag. -/
theorem inquireLoop_joined :
    ∀ (fuel : Nat) (st : DriverState) (script : List (Option String))
      (rssiData : List String) (kvp : Option String) (flag : Bool),
      ((inquireLoop st script fuel rssiData kvp flag).1).joined = st.joined := by
  intro fuel
  induction fuel with
  | zero => intro st script rssi kvp flag; rfl
  | succ f ih =>
    intro st script rssi kvp flag
    match script with
    | [] => simp only [inquireLoop]; exact ih st [] rssi kvp flag
    | none :: rest => simp only [inquireLoop]; exact ih st rest rssi kvp flag
    | some raw :: rest =>
      simp only [inquireLoop]
      repeat' split
      all_goals first
        | rfl
        | exact ih st rest _ _ _

/-- The joined flag survives the set-command loop. -/
theorem setCmdLoop_joined :
    ∀ (fuel : Nat) (st : DriverState) (script : List (Option String)),
      ((setCmdLoop st script fuel).1).joined = st.joined := by
  intro fuel
  induction fuel with
  | zero => intro st script; rfl
  | succ f ih =>
    intro st script
    match script with
    | [] => simp only [setCmdLoop]; exact ih st []
    | none :: rest => simp only [setCmdLoop]; exact ih st rest
    | some raw :: rest =>
      simp only [setCmdLoop]
      repeat' split
      all_goals first
        | rfl
        | exact ih st rest

/-- The joined flag survives a whole inquire transaction. -/
theorem _inquire_joined (st : DriverState) (cmd : String)
    (script : List (Option String)) (fuel : Nat) :
    ((_inquire st cmd script fuel).1).joined = st.joined := by
  unfold _inquire
  exact inquireLoop_joined fuel _ script [] none false

/-- The joined flag survives a whole set transaction. -/
theorem _setCmd_joined (st : DriverState) (cmd : String)
    (script : List (Option String)) (fuel : Nat) :
    ((_setCmd st cmd script fuel).1).joined = st.joined := by
  unfold _setCmd
  exact setCmdLoop_joined fuel _ script

/-- getD after tail looks one position further. -/
theorem getD_tail (l : List Bool) (i : Nat) :
    l.tail.getD i false = l.getD (i + 1) false := by
  cases l with
  | nil => rfl
  | cons x xs => rfl

/-- If no line is buffered during the whole fuel window, the busy-wait
loop of join raises ASRReceiveTimeout. -/
theorem joinWaitLoop_timeout :
    ∀ (fuel : Nat) (avail : List Bool),
      (∀ i, i ≤ fuel → avail.getD i false = false) →
      joinWaitLoop fuel avail = .timeout := by
  intro fuel
  induction fuel with
  | zero =>
    intro avail h
    simp only [joinWaitLoop]
    rw [h 0 (Nat.le_refl 0)]
    rfl
  | succ f ih =>
    intro avail h
    simp only [joinWaitLoop]
    rw [h 0 (Nat.zero_le _)]
    exact ih avail.tail (fun i hi => by
      rw [getD_tail]; exact h (i + 1) (Nat.succ_le_succ hi))

/-- Taking a slice of a slice clamps to the smaller bound. -/
theorem pyTake_pyTake (s : String) (m n : Nat) :
    pyTake (pyTake s n) m = pyTake s (min m n) := by
  simp [pyTake, List.take_take]

/-- When the next line read is a +CME ERROR line whose split yields the
kind and a remainder, the inquire loop stores both fields (the remainder
as a string) and raises ASRCMEError, whatever the accumulators hold. -/
theorem inquireLoop_cme_step (st : DriverState) (l b : String)
    (rest : List (Option String)) (fuel : Nat)
    (rssi : List String) (kvp : Option String) (flag : Bool)
    (hstrip : pyRstrip l = l)
    (hcme : pyTake l 11 = "+CME ERROR:")
    (hsplit : pySplit l ':' 2 = ["+CME ERROR", b]) :
    inquireLoop st (some l :: rest) (fuel + 1) rssi kvp flag
      = ({ st with
           lastErrorType := some "+CME ERROR",
           lastErrorNum := some (.str b) }, .error .cmeError) := by
  have hne : l ≠ "" := by
    intro hl; rw [hl] at hcme; exact absurd hcme (by decide)
  have h3 : pyTake l 3 = "+CM" := by
    have h := pyTake_pyTake l 3 11
    rw [hcme] at h
    simpa using h.symm
  have hat : pyTake l 3 ≠ "AT+" := by rw [h3]; decide
  have hcrssi : l ≠ "+CRSSI:" := by
    intro hl; rw [hl] at hcme; exact absurd hcme (by decide)
  have hok : l ≠ "OK" := by
    intro hl; rw [hl] at hcme; exact absurd hcme (by decide)
  simp only [inquireLoop, hstrip]
  rw [if_neg hne, if_neg hat, if_neg hcrssi, if_neg hok, if_pos hcme, hsplit]

/-- The inquire loop walks over any run of non-terminating entries,
consuming one fuel unit each without touching the error fields, and then
handles a +CME ERROR line as in the single-step lemma: the error line
may appear anywhere after such a run. -/
theorem inquireLoop_cme_after (pre : List (Option String)) :
    ∀ (st : DriverState) (l b : String) (rest : List (Option String)) (fuel : Nat)
      (rssi : List String) (kvp : Option String) (flag : Bool),
      (∀ e ∈ pre, nonTerminalB e = true) →
      pyRstrip l = l →
      pyTake l 11 = "+CME ERROR:" →
      pySplit l ':' 2 = ["+CME ERROR", b] →
      inquireLoop st (pre ++ some l :: rest) (pre.length + (fuel + 1)) rssi kvp flag
        = ({ st with
             lastErrorType := some "+CME ERROR",
             lastErrorNum := some (.str b) }, .error .cmeError) := by
  induction pre with
  | nil =>
    intro st l b rest fuel rssi kvp flag _ hstrip hcme hsplit
    simpa using inquireLoop_cme_step st l b rest fuel rssi kvp flag hstrip hcme hsplit
  | cons e pre ih =>
    intro st l b rest fuel rssi kvp flag hpre hstrip hcme hsplit
    have hnt := hpre e (List.mem_cons_self _ _)
    have hih := fun (rssi1 : List String) (kvp1 : Option String) (flag1 : Bool) =>
      ih st l b rest fuel rssi1 kvp1 flag1
        (fun x hx => hpre x (List.mem_cons_of_mem _ hx)) hstrip hcme hsplit
    have hlen : (e :: pre).length + (fuel + 1) = (pre.length + (fuel + 1)) + 1 := by
      simp [List.length_cons]
      omega
    rw [hlen]
    cases e with
    | none =>
      simp only [List.cons_append, inquireLoop]
      exact hih rssi kvp flag
    | some raw =>
      simp only [nonTerminalB, Bool.and_eq_true, Bool.not_eq_true',
        beq_eq_false_iff_ne, ne_eq] at hnt
      obtain ⟨hok, hcm⟩ := hnt
      simp only [List.cons_append, inquireLoop]
      by_cases h1 : pyRstrip raw = ""
      · rw [if_pos h1]
        exact hih rssi kvp flag
      · rw [if_neg h1]
        by_cases h2 : pyTake (pyRstrip raw) 3 = "AT+"
        · rw [if_pos h2]
          exact hih rssi kvp flag
        · rw [if_neg h2]
          by_cases h3 : pyRstrip raw = "+CRSSI:"
          · rw [if_pos h3]
            exact hih rssi kvp true
          · rw [if_neg h3, if_neg hok, if_neg hcm]
            by_cases hf : flag = true
            · rw [if_pos hf]
              exact hih (rssi ++ [pyRstrip raw]) kvp flag
            · rw [if_neg hf]
              exact hih rssi (some (pyRstrip raw)) flag

/-- C1: for every payload string and every flag, retry and channel
configuration, sendPayload returns False on its final step, because the
return False inside the finally-equivalent block replaces the return True
of the success path; the second conjunct shows the success path is live:
there are channel scripts on which the try-block itself ends in return
True, and the method still reports False. -/
theorem sendPayload_always_false :
    (∀ (st : DriverState) (payload : String) (confirm nbtrials : Nat)
       (setScript rx1Script : List (Option String))
       (drainScripts : List (List String)) (K : Nat),
       (sendPayload st payload confirm nbtrials setScript rx1Script drainScripts K).2
         = false)
    ∧ (sendPayloadBody stCb "" 0 8 [some "OK"] [some "+CRX1DELAY:5", some "OK"] [] 1).2
        = .ok true :=
  ⟨fun _ _ _ _ _ _ _ _ => rfl, by decide⟩

/-- C2: evaluation at the failing input.  Transaction one gets a
+CME ERROR:1 reply and records the error; transaction two completes
without any device error, yet getLastATError does not return none
afterwards: it reports the stale error of transaction one combined with
the new command, because _clearLastError assigns the capital-L attributes
LastErrorType and LastErrorNum while getLastATError reads lastErrorType
and lastErrorNum. -/
theorem getLastATError_stale_after_success :
    (_inquire st0 "CGMI" [some "AT+CGMI?", some "+CME ERROR:1"] 5).2 = .error .cmeError
    ∧ (_inquire (_inquire st0 "CGMI" [some "AT+CGMI?", some "+CME ERROR:1"] 5).1 "CGSN"
        [some "AT+CGSN?", some "+CGSN:0D39FFCD00031E43", some "OK"] 5).2
      = .ok (.scalar "0D39FFCD00031E43")
    ∧ getLastATError (_inquire (_inquire st0 "CGMI"
        [some "AT+CGMI?", some "+CME ERROR:1"] 5).1 "CGSN"
        [some "AT+CGSN?", some "+CGSN:0D39FFCD00031E43", some "OK"] 5).1
      = some ⟨some "CGSN", some "+CME ERROR", some (.str "1")⟩ := by decide

/-- C3: evaluation at the failing input.  setDevAddr validates with the
16-character pattern, so the valid 8-character DevAddr DEADBEEF (which
the 8-character pattern hex8char of the source accepts, last conjunct)
is rejected with ASRInvalidDevAddr and nothing is written, while the
16-character string 00DEADBEEF00DEAD is accepted and a command is
written to the channel. -/
theorem setDevAddr_validates_sixteen_chars :
    setDevAddr st0 "DEADBEEF" [some "OK"] 2 = (st0, .error .invalidDevAddr)
    ∧ (setDevAddr st0 "00DEADBEEF00DEAD" [some "OK"] 2).2 = .ok true
    ∧ (setDevAddr st0 "00DEADBEEF00DEAD" [some "OK"] 2).1.written
      = ["AT+CDEVADDR=00DEADBEEF00DEAD\r\n"]
    ∧ matchHexPat 4 "DEADBEEF" = true := by decide

/-- C7: for every inquire operation whose channel only ever yields
command echoes, empty lines or nothing, never a terminating OK or error
line, the transaction raises ASRReceiveTimeout once the configured fuel
window (the timeout, checked on every poll iteration of the loop) has
elapsed. -/
theorem inquire_echo_only_times_out (st : DriverState) (cmd : String)
    (script : List (Option String)) (fuel : Nat)
    (h : ∀ e ∈ script, ignorableB e = true) :
    (_inquire st cmd script fuel).2 = .error .receiveTimeout := by
  unfold _inquire
  exact inquireLoop_timeout fuel _ script [] none false h

/-- Witness for C7 at a concrete echo-only script. -/
theorem inquire_echo_only_times_out_witness :
    (∀ e ∈ [some "AT+CGMI?", none, some ""], ignorableB e = true)
    ∧ (_inquire st0 "CGMI" [some "AT+CGMI?", none, some ""] 5).2
      = .error .receiveTimeout :=
  ⟨by decide, inquire_echo_only_times_out st0 "CGMI" [some "AT+CGMI?", none, some ""] 5
    (by decide)⟩

/-- C10: _setCmd either raises or returns True, never False, and
consequently the return-False fallthrough of setJoinMode is unreachable:
every ok outcome of either carries true. -/
theorem setCmd_never_returns_false :
    (∀ (st : DriverState) (cmd : String) (script : List (Option String)) (fuel : Nat)
       (st1 : DriverState) (b : Bool),
       _setCmd st cmd script fuel = (st1, .ok b) → b = true)
    ∧ (∀ (st : DriverState) (mode : Nat) (script : List (Option String)) (fuel : Nat)
       (st1 : DriverState) (b : Bool),
       setJoinMode st mode script fuel = (st1, .ok b) → b = true) := by
  have hset : ∀ (st : DriverState) (cmd : String) (script : List (Option String))
      (fuel : Nat) (st1 : DriverState) (b : Bool),
      _setCmd st cmd script fuel = (st1, .ok b) → b = true := by
    intro st cmd script fuel st1 b h
    unfold _setCmd at h
    exact setCmdLoop_ok_true fuel _ script st1 b h
  refine ⟨hset, ?_⟩
  intro st mode script fuel st1 b h
  unfold setJoinMode at h
  by_cases hm : mode > 1
  · rw [if_pos hm] at h
    injection h with h1 h2
    exact Except.noConfusion h2
  · rw [if_neg hm] at h
    rcases hcmd : _setCmd st ("CJOINMODE=" ++ toString mode) script fuel with ⟨st2, r⟩
    rw [hcmd] at h
    match r with
    | .error e => injection h with h1 h2; exact Except.noConfusion h2
    | .ok true => injection h with h1 h2; injection h2 with hb; exact hb.symm
    | .ok false => exact absurd (hset st _ script fuel st2 false hcmd) (by decide)

/-- Witness for C10 at a concrete accepted set command. -/
theorem setCmd_never_returns_false_witness :
    _setCmd st0 "CGBR=115200" [some "OK"] 2
      = ({ lastATCmd := some "CGBR=115200", written := ["AT+CGBR=115200\r\n"] }, .ok true)
    ∧ true = true :=
  ⟨by decide, setCmd_never_returns_false.1 st0 "CGBR=115200" [some "OK"] 2
    { lastATCmd := some "CGBR=115200", written := ["AT+CGBR=115200\r\n"] } true (by decide)⟩

/-- C4 counterexample: a receive-notification whose payload contains a
comma.  split(",", 4) performs up to four splits, so the text after
OK+RECV: yields five fields; the four-name unpacking then raises
ValueError and the handler is never invoked, against the claim that the
payload after the third comma is passed verbatim. -/
theorem drain_recv_comma_counterexample :
    (_getDelayedReplies stCb ["OK+RECV:1,2,4,de,ad"]).2 = some .valueError
    ∧ (_getDelayedReplies stCb ["OK+RECV:1,2,4,de,ad"]).1.callbackCalls = []
    ∧ pySplit "1,2,4,de,ad" ',' 4 = ["1", "2", "4", "de", "ad"] := by decide

/-- C4 amended: for every receive-notification line drained while a
handler is registered, the text after OK+RECV: is split with a budget of
four splits, and the handler is invoked exactly once with the four fields
precisely when that split yields exactly four fields, that is when the
payload itself is comma-free. -/
theorem drain_recv_invokes_handler_once (st : DriverState) (l a b c d : String)
    (hcb : st.hasDownlinkCallback = true)
    (hcalls : st.callbackCalls = [])
    (hstrip : pyRstrip l = l)
    (hrecv : pyTake l 8 = "OK+RECV:")
    (hsplit : pySplit (pyDrop l 8) ',' 4 = [a, b, c, d]) :
    _getDelayedReplies st [l]
      = ({ _clearLastError st with
           downlinkRecvd := true, callbackCalls := [(a, b, c, d)] }, none) := by
  have hne : l ≠ "" := by
    intro hl; rw [hl] at hrecv; exact absurd hrecv (by decide)
  have hcj1 : l ≠ "+CJOIN:OK" := by
    intro hl; rw [hl] at hrecv; exact absurd hrecv (by decide)
  have hcj2 : l ≠ "+CJOIN:FAIL" := by
    intro hl; rw [hl] at hrecv; exact absurd hrecv (by decide)
  have hsent : pyTake l 8 ≠ "OK+SENT:" := by rw [hrecv]; decide
  unfold _getDelayedReplies
  simp only [drainLines, hstrip]
  rw [if_neg hne, if_neg hcj1, if_neg hcj2, if_neg hsent, if_pos hrecv,
    if_pos (show (_clearLastError st).hasDownlinkCallback = true from hcb)]
  rw [hsplit]
  simp only [drainLines]
  simp [_clearLastError, hcalls]

/-- Witness for C4 at the concrete scenario line of the specification. -/
theorem drain_recv_invokes_handler_once_witness :
    pySplit (pyDrop "OK+RECV:1,2,4,deadbeef" 8) ',' 4 = ["1", "2", "4", "deadbeef"]
    ∧ _getDelayedReplies stCb ["OK+RECV:1,2,4,deadbeef"]
      = ({ stCb with
           downlinkRecvd := true,
           callbackCalls := [("1", "2", "4", "deadbeef")] }, none) :=
  ⟨by decide, drain_recv_invokes_handler_once stCb "OK+RECV:1,2,4,deadbeef"
    "1" "2" "4" "deadbeef" (by decide) (by decide) (by decide) (by decide) (by decide)⟩

/-- C5: for every join start accepted while not already joined, with the
set command succeeding and the RX1-delay inquiry answering a numeric
scalar v, the wait bound is retries * (v + 1) seconds; if no line becomes
buffered on the channel throughout that bound, ASRReceiveTimeout is
raised and the joined flag of the resulting state is still false. -/
theorem join_timeout_uses_retries_times_rx1 (st st1 st2 : DriverState)
    (a iv r : Nat) (s : String) (v : Int)
    (setScript rx1Script : List (Option String)) (avail : List Bool)
    (drainScript : List String) (K : Nat)
    (ha : a ≤ 1) (hiv1 : 1 ≤ iv) (hiv2 : iv ≤ 255) (hr1 : 1 ≤ r) (hr2 : r ≤ 256)
    (hnj : st.joined = false)
    (hset : _setCmd (_clearLastError st)
        ("CJOIN=" ++ toString 1 ++ "," ++ toString a ++ ","
          ++ toString iv ++ "," ++ toString r)
        setScript (2 * K) = (st1, .ok true))
    (hrx1 : _inquire st1 "CRX1DELAY" rx1Script (2 * K) = (st2, .ok (.scalar s)))
    (hv : pyInt s = some v)
    (havail : ∀ i, i ≤ ((r : Int) * (v + 1)).toNat * K → avail.getD i false = false) :
    join st 1 a iv r setScript rx1Script avail drainScript K
      = (st2, .error .receiveTimeout)
    ∧ st2.joined = false := by
  have hj1 : st1.joined = st.joined := by
    have h := _setCmd_joined (_clearLastError st)
      ("CJOIN=" ++ toString 1 ++ "," ++ toString a ++ ","
        ++ toString iv ++ "," ++ toString r) setScript (2 * K)
    rw [hset] at h
    exact h
  have hj2 : st2.joined = st1.joined := by
    have h := _inquire_joined st1 "CRX1DELAY" rx1Script (2 * K)
    rw [hrx1] at h
    exact h
  constructor
  · unfold join
    rw [if_neg (by omega)]
    rw [if_neg (by omega)]
    rw [if_neg (by omega)]
    rw [if_neg (by omega)]
    rw [if_neg (by simp [hnj])]
    dsimp only
    rw [hset]
    dsimp only
    unfold getRX1Delay
    rw [hrx1]
    dsimp only
    rw [hv]
    dsimp only
    rw [joinWaitLoop_timeout (((r : Int) * (v + 1)).toNat * K) avail havail]
  · rw [hj2, hj1]
    exact hnj

/-- Witness for C5 at the scenario of the specification: retries 8 and an
RX1 delay of 5 give the bound 48 seconds, and a silent channel makes the
join raise ASRReceiveTimeout with the joined flag still false. -/
theorem join_timeout_uses_retries_times_rx1_witness :
    ((8 : Int) * (5 + 1)).toNat * 1 = 48
    ∧ join st0 1 0 8 8 [some "OK"] [some "+CRX1DELAY:5", some "OK"] [] [] 1
      = ({ lastATCmd := some "CRX1DELAY",
           written := ["AT+CJOIN=1,0,8,8\r\n", "AT+CRX1DELAY?\r\n"] },
         .error .receiveTimeout)
    ∧ ({ lastATCmd := some "CRX1DELAY",
         written := ["AT+CJOIN=1,0,8,8\r\n", "AT+CRX1DELAY?\r\n"] } : DriverState).joined
      = false := by
  refine ⟨by decide, ?_, ?_⟩
  · exact (join_timeout_uses_retries_times_rx1 st0
      { lastATCmd := some "CJOIN=1,0,8,8", written := ["AT+CJOIN=1,0,8,8\r\n"] }
      { lastATCmd := some "CRX1DELAY",
        written := ["AT+CJOIN=1,0,8,8\r\n", "AT+CRX1DELAY?\r\n"] }
      0 8 8 "5" 5 [some "OK"] [some "+CRX1DELAY:5", some "OK"] [] [] 1
      (by decide) (by decide) (by decide) (by decide) (by decide) (by decide)
      (by decide) (by decide) (by decide) (fun i _ => rfl)).1
  · exact rfl

/-- C6 counterexample: at the concrete inquire that receives
+CME ERROR:1 the operation fails with ASRCMEError and the last-error
record carries the command and the kind, but its number field holds the
string after the colon, the Python string "1", not the integer 1: the
two assignments come from split(":", 2), which yields strings. -/
theorem inquire_cme_code_is_string_counterexample :
    (_inquire st0 "CGMI" [some "AT+CGMI?", some "+CME ERROR:1"] 5).2
      = .error .cmeError
    ∧ getLastATError (_inquire st0 "CGMI" [some "AT+CGMI?", some "+CME ERROR:1"] 5).1
      = some ⟨some "CGMI", some "+CME ERROR", some (.str "1")⟩
    ∧ PyVal.str "1" ≠ PyVal.int 1 := by decide

/-- C6 amended: for every inquire transaction during which the channel
yields a +CME ERROR line (splitting on the colon into the kind and a
remainder) anywhere — that is, after any run of entries that cannot end
the transaction: idle polls, empty lines, echoes, +CRSSI: and ordinary
value lines — and with enough timeout left to reach it, the operation
fails with ASRCMEError and getLastATError afterwards reports the sent
mnemonic, the kind +CME ERROR, and the text after the colon as a
string. -/
theorem inquire_cme_sets_last_error (st : DriverState) (cmd : String)
    (pre : List (Option String)) (l b : String)
    (rest : List (Option String)) (fuel : Nat)
    (hpre : ∀ e ∈ pre, nonTerminalB e = true)
    (hstrip : pyRstrip l = l)
    (hcme : pyTake l 11 = "+CME ERROR:")
    (hsplit : pySplit l ':' 2 = ["+CME ERROR", b]) :
    ∃ st1, _inquire st cmd (pre ++ some l :: rest) (pre.length + (fuel + 1))
        = (st1, .error .cmeError)
      ∧ getLastATError st1 = some ⟨some cmd, some "+CME ERROR", some (.str b)⟩ := by
  unfold _inquire
  dsimp only
  rw [inquireLoop_cme_after pre _ l b rest fuel [] none false hpre hstrip hcme hsplit]
  refine ⟨_, rfl, ?_⟩
  unfold getLastATError
  rw [if_neg (by simp)]

/-- Witness for C6 at the protocol flow of the specification scenario:
the command echo first, then the concrete error line. -/
theorem inquire_cme_sets_last_error_witness :
    (∀ e ∈ [some "AT+CSTATUS?"], nonTerminalB e = true)
    ∧ pySplit "+CME ERROR:1" ':' 2 = ["+CME ERROR", "1"]
    ∧ ∃ st1, _inquire st0 "CSTATUS" [some "AT+CSTATUS?", some "+CME ERROR:1"] 3
        = (st1, .error .cmeError)
      ∧ getLastATError st1 = some ⟨some "CSTATUS", some "+CME ERROR", some (.str "1")⟩ :=
  ⟨by decide, by decide,
   inquire_cme_sets_last_error st0 "CSTATUS" [some "AT+CSTATUS?"] "+CME ERROR:1" "1" [] 1
     (by decide) (by decide) (by decide) (by decide)⟩

/-- C8 counterexample: a silent channel during construction.  The
identity inquiry never returns None, so the guarded raise of
ASRSerialError is dead; instead the inquiry raises ASRReceiveTimeout and
the blanket except-clause turns it into exit(e): construction terminates
carrying ReceiveTimeout, not SerialUnavailable. -/
theorem init_no_reply_counterexample :
    initIdentityCheck [] 3 = .exited .receiveTimeout
    ∧ ASRErr.receiveTimeout ≠ ASRErr.serialError := by decide

/-- C8 amended: during construction, an identity inquiry that never gets
a definitive reply ends construction via exit carrying ReceiveTimeout
(the SerialUnavailable branch is unreachable), and an identity inquiry
answering a scalar different from ASR raises UnexpectedManufacturer,
which the blanket except-clause also converts into exit; in both cases
construction fails and no usable driver instance is returned. -/
theorem init_identity_check_fails_hard :
    (∀ (script : List (Option String)) (fuel : Nat),
       (∀ e ∈ script, ignorableB e = true) →
       initIdentityCheck script fuel = .exited .receiveTimeout)
    ∧ (∀ (script : List (Option String)) (fuel : Nat) (st1 : DriverState) (s : String),
       _inquire st0 "CGMI" script fuel = (st1, .ok (.scalar s)) → s ≠ "ASR" →
       initIdentityCheck script fuel = .exited .unsupportedManuf) := by
  constructor
  · intro script fuel h
    have ht : (_inquire st0 "CGMI" script fuel).2 = .error .receiveTimeout := by
      unfold _inquire
      exact inquireLoop_timeout fuel _ script [] none false h
    unfold initIdentityCheck getManufId
    rcases heq : _inquire st0 "CGMI" script fuel with ⟨stx, r⟩
    rw [heq] at ht
    dsimp only at ht
    rw [ht]
  · intro script fuel st1 s hinq hs
    unfold initIdentityCheck getManufId
    rw [hinq]
    dsimp only
    rw [if_neg hs]

/-- Witness for C8: a silent-after-echo channel exits with
ReceiveTimeout, and a channel answering manufacturer BOB exits with
UnexpectedManufacturer. -/
theorem init_identity_check_fails_hard_witness :
    initIdentityCheck [some "AT+CGMI?"] 2 = .exited .receiveTimeout
    ∧ initIdentityCheck [some "+CGMI:BOB", some "OK"] 3 = .exited .unsupportedManuf :=
  ⟨init_identity_check_fails_hard.1 [some "AT+CGMI?"] 2 (by decide),
   init_identity_check_fails_hard.2 [some "+CGMI:BOB", some "OK"] 3
     { lastATCmd := some "CGMI", written := ["AT+CGMI?\r\n"] } "BOB"
     (by decide) (by decide)⟩

/-- C9: calcAirTime equals the closed-form airtime formula of the
specification for every payload length, spreading factor, bandwidth,
preamble count, header flag, low-data-rate flag and coding rate in the
documented ranges; both sides are pure functions of their arguments over
exact rational arithmetic, with no channel and no driver state. -/
theorem calcAirTime_matches_formula (PL SF BW NP HE DE CR : ℕ)
    (hBW : 0 < BW) (hSF : 2 * DE < SF) :
    calcAirTime PL SF BW NP HE DE CR = airTimeSpec PL SF BW NP HE DE CR := by
  unfold calcAirTime airTimeSpec
  rw [max_comm]
  ring

/-- Witness for C9 at the EU868 DR3 default parameters. -/
theorem calcAirTime_matches_formula_witness :
    0 < 125 ∧ 2 * 0 < 9
    ∧ calcAirTime 13 9 125 8 0 0 1 = airTimeSpec 13 9 125 8 0 0 1 :=
  ⟨by norm_num, by norm_num,
   calcAirTime_matches_formula 13 9 125 8 0 0 1 (by norm_num) (by norm_num)⟩
